import Mathlib

/-!
Verification development for the moragents multi-agent dispatch layer.

The Python sources embedded here are:
  - `src/submodules/moragents_dockers/agents/src/delegator.py`
    (`Delegator.load_agents`, `Delegator.get_delegator_response`,
     `Delegator.delegate_chat`),
  - `src/submodules/moragents_dockers/agents/src/agents/dca_agent/agent.py`
    (`DCAAgent.chat`, `DCAAgent.handle_dollar_cost_average`),
  - `src/submodules/moragents_dockers/agents/src/agents/realtime_search/agent.py`
    (`RealtimeSearchAgent.perform_search`, `RealtimeSearchAgent.chat`).

External effects (dynamic module loading, the language-model client, the
HTTP client, HTML parsing, the strategy-management tools module) are
modelled as explicit oracle parameters; the control flow, string literals
and data shapes of the Python functions are translated directly.
Mutation of instance fields is modelled by explicit state passing, and
Python exceptions by sum/option result types.  Where a claim is about an
effect NOT happening (no agent invoked, no HTTP request issued), the
embedding additionally returns an explicit trace of the invocations the
Python code would perform, so that "no call" is a provable statement.
-/

/-- Agent descriptor from the configuration list: the fields
`name`, `path`, `class`, `description`, `upload_required` of one entry of
`config["agents"]` (`class` is renamed `className` for Lean). -/
structure AgentInfo where
  name : String
  path : String
  className : String
  description : String
  upload_required : Bool
deriving DecidableEq, Repr

/-- Configuration object: only the `"agents"` key is read by the code
under study. -/
structure Config where
  agents : List AgentInfo
deriving DecidableEq, Repr

/-- Python `dict` lookup `d.get(k)` for a dict represented as an
association list with unique keys (first match wins). -/
def dictGet {β : Type} (d : List (String × β)) (k : String) : Option β :=
  match d with
  | [] => none
  | (k', v) :: rest => if k' = k then some v else dictGet rest k

/-- Python `dict` assignment `d[k] = v`: replace in place when the key is
present (Python dicts keep the original position), append otherwise. -/
def dictInsert {β : Type} (d : List (String × β)) (k : String) (v : β) :
    List (String × β) :=
  if d.any (fun p => p.1 = k) then
    d.map (fun p => if p.1 = k then (k, v) else p)
  else
    d ++ [(k, v)]

/-- Keys of a dict, in order. -/
def dictKeys {β : Type} (d : List (String × β)) : List String :=
  d.map Prod.fst

/-- Outcome of calling an agent's `chat` method in Python: either a normal
return value or a raised exception (carrying its message). -/
inductive ChatOutcome (α : Type) where
  | success (result : α)
  | exception (msg : String)

/-- An agent object, as seen by the delegator's chat dispatcher: its
`chat` method, a function from the request to an outcome. -/
def Agent (ρ α : Type) : Type := ρ → ChatOutcome α

/-- Return value of `Delegator.delegate_chat`: either the pair
`(agent_name, result)` or a `({"error": ...}, status)` pair. -/
inductive DelegateResult (α : Type) where
  | ok (agentName : String) (result : α)
  | error (body : String) (status : Nat)
deriving DecidableEq

/-- Output of the `delegate_chat` embedding: the result, the registry as
it stands after the call (the method performs no assignment, which the
embedding makes checkable), and the trace of agent names whose `chat`
method was invoked. -/
structure DelegateOutput (ρ α : Type) where
  agentsAfter : List (String × Agent ρ α)
  result : DelegateResult α
  invoked : List String

/-- Embeds `Delegator.delegate_chat` (delegator.py lines 96-111):
look up `agent_name` in `self.agents`; if present call `agent.chat(request)`
inside a `try`, returning `(agent_name, result)` on success and
`({"error": f"Chat delegation to {agent_name} failed"}, 500)` when the
call raises; if absent return
`({"error": f"No such agent registered: {agent_name}"}, 400)`. -/
def Delegator.delegate_chat {ρ α : Type} (agents : List (String × Agent ρ α))
    (agentName : String) (request : ρ) : DelegateOutput ρ α :=
  match dictGet agents agentName with
  | some agent =>
    match agent request with
    | .success r => ⟨agents, .ok agentName r, [agentName]⟩
    | .exception _ =>
        ⟨agents, .error ("Chat delegation to " ++ agentName ++ " failed") 500,
          [agentName]⟩
  | none =>
      ⟨agents, .error ("No such agent registered: " ++ agentName) 400, []⟩

/-- Embeds `Delegator.load_agents` (delegator.py lines 21-36): fold over
`config["agents"]`, attempting to resolve and construct each descriptor;
`construct` models `importlib.import_module` + `getattr` + instantiation
(`none` = some step raised); on success the instance is stored under the
descriptor's name, on failure the exception is logged and the descriptor
is skipped. -/
def Delegator.load_agents {β : Type} (construct : AgentInfo → Option β)
    (config : Config) : List (String × β) :=
  config.agents.foldl
    (fun agents info =>
      match construct info with
      | some inst => dictInsert agents info.name inst
      | none => agents)
    []

/-- Configurable default agent (delegator.py line 10).  Defined for
completeness: `get_delegator_response` never falls back to it. -/
def DEFAULT_AGENT : String := "general purpose and context-based rag agent"

/-- Condition of the list comprehension filter in `get_delegator_response`
(delegator.py line 42): `not (agent_info["upload_required"] and not
upload_state)`. -/
def uploadSatisfied (info : AgentInfo) (uploadState : Bool) : Bool :=
  !(info.upload_required && !uploadState)

/-- Embeds the `available_agents` list comprehension of
`Delegator.get_delegator_response` (delegator.py lines 39-43). -/
def availableAgents (config : Config) (uploadState : Bool) : List String :=
  (config.agents.filter (fun info => uploadSatisfied info uploadState)).map
    AgentInfo.name

/-- Descriptor line `f"- {agent_info['name']}: {agent_info['description']}"`
(delegator.py line 47). -/
def descriptionLine (info : AgentInfo) : String :=
  "- " ++ info.name ++ ": " ++ info.description

/-- Descriptors contributing to `agent_descriptions` (delegator.py lines
46-50): those whose name is in `available_agents`. -/
def descriptionAgents (config : Config) (uploadState : Bool) : List AgentInfo :=
  config.agents.filter
    (fun info => (availableAgents config uploadState).contains info.name)

/-- Embeds `agent_descriptions` (delegator.py lines 46-50): the join by
newline of the descriptor lines of `descriptionAgents`. -/
def agentDescriptions (config : Config) (uploadState : Bool) : String :=
  String.intercalate "\n" ((descriptionAgents config uploadState).map
    descriptionLine)

/-- One entry of `result.tool_calls` from the langchain response: only its
`"args"` dict is read (delegator.py line 92). -/
structure ToolCall where
  args : List (String × String)
deriving DecidableEq

/-- Model response, as consumed by `get_delegator_response`: its
`tool_calls` list (delegator.py line 86). -/
structure LLMResult where
  tool_calls : List ToolCall
deriving DecidableEq

/-- Query sent to the tool-bound model by `get_delegator_response`: the
enum of the single-choice schema, the system message and the human
message (delegator.py lines 60-83). -/
structure LLMQuery where
  toolEnum : List String
  system : String
  human : String
deriving DecidableEq

/-- Embeds `Delegator.get_delegator_response` (delegator.py lines 38-94):
build `available_agents` and `agent_descriptions` from `config["agents"]`,
assemble the system prompt and the `select_agent` tool schema, issue one
model call (`invoke` models `agent_selection_llm.invoke(messages)`), and
parse the response: an empty `tool_calls` raises
`ValueError("No agent was selected by the model.")` (modelled as
`Except.error`); otherwise the result is
`{"agent": tool_calls[0].get("args").get("agent")}` (the inner `.get` may
yield `None`, hence `Option String`). -/
def Delegator.get_delegator_response (invoke : LLMQuery → LLMResult)
    (config : Config) (prompt : String) (uploadState : Bool) :
    Except String (Option String) :=
  let available := availableAgents config uploadState
  let systemPrompt :=
    "Your name is Morpheus. " ++
    "Your primary function is to select the correct agent based on the user\x27s input. " ++
    "You MUST use the \x27select_agent\x27 function to select an agent. " ++
    "Available agents and their descriptions: " ++
    agentDescriptions config uploadState ++ "\n" ++
    "Analyze the user\x27s input and select the most appropriate agent. "
  let result := invoke ⟨available, systemPrompt, prompt⟩
  match result.tool_calls with
  | [] => Except.error "No agent was selected by the model."
  | tc :: _ => Except.ok (dictGet tc.args "agent")

/-- Agent state of `RealtimeSearchAgent` (realtime_search/agent.py lines
16-20): the fields set in `__init__` — `config`, `llm`, `embeddings`
(opaque handles, kept as type parameters) and `last_search_term`,
initialised to `None`. -/
structure RTState (C L E : Type) where
  config : C
  llm : L
  embeddings : E
  last_search_term : Option String
deriving DecidableEq

/-- Outcome of `requests.get` followed by `raise_for_status()`: either the
response markup (`response.text`) or a raised `requests.RequestException`
(which `raise_for_status` raises on HTTP error status). -/
inductive HttpOutcome where
  | ok (text : String)
  | requestException (msg : String)

/-- Output of the `perform_search` embedding: the agent state after the
call, the returned string, and the trace of URLs fetched with
`requests.get` (so that "no network call" is provable). -/
structure SearchOutput (C L E : Type) where
  state : RTState C L E
  result : String
  httpCalls : List String
deriving DecidableEq

/-- Embeds `RealtimeSearchAgent.perform_search` (realtime_search/agent.py
lines 22-52).  `http` models `requests.get` + `raise_for_status` on a URL;
`parse` models `BeautifulSoup(...).find_all("div", class_="g")` followed
by `get_text(strip=True)` on each hit, mapping the markup to the list of
result texts.  Control flow: a non-`None` `search_term` is stored in
`last_search_term` first; a `None` argument with no stored term returns
the fixed failure message without any request; otherwise the stored term
is reused.  The top five parsed results are prefixed and joined by blank
lines; a `requests.RequestException` is caught and returned as text. -/
def RealtimeSearchAgent.perform_search {C L E : Type}
    (http : String → HttpOutcome) (parse : String → List String)
    (s : RTState C L E) (search_term : Option String) : SearchOutput C L E :=
  match search_term with
  | some term => searchWith http parse { s with last_search_term := some term } term
  | none =>
    match s.last_search_term with
    | none => ⟨s, "Web search failed. Please provide a search term.", []⟩
    | some term => searchWith http parse s term
where
  /-- Body of the `try` block (lines 33-52), after the search term has
  been settled. -/
  searchWith (http : String → HttpOutcome) (parse : String → List String)
      (s : RTState C L E) (term : String) : SearchOutput C L E :=
    let url := "https://www.google.com/search?q=" ++ term
    match http url with
    | .ok text =>
        let formatted := ((parse text).take 5).map
          (fun r => "Result:\n" ++ r)
        ⟨s, String.intercalate "\n\n" formatted, [url]⟩
    | .requestException msg =>
        ⟨s, "Error performing web search: " ++ msg, [url]⟩

/-- A Python value appearing in a response body: a string or `None`
(the `next_turn_agent` slot may be `None`). -/
inductive PyValue where
  | str (s : String)
  | null
deriving DecidableEq

/-- Coerces Python `Optional[str]` into a body value. -/
def PyValue.ofOption : Option String → PyValue
  | some s => .str s
  | none => .null

/-- Return value of an agent `chat` method: a success body (a dict) or a
failure `(body, status)` pair. -/
inductive ChatResponse where
  | success (body : List (String × PyValue))
  | failure (body : List (String × PyValue)) (status : Nat)
deriving DecidableEq

/-- The `prompt` field of a chat request: a plain string or a mapping
(jsonish dict) holding at least possibly a `content` key. -/
inductive PromptVal where
  | str (s : String)
  | dict (entries : List (String × String))
deriving DecidableEq

/-- Outcome of `DCAAgent.handle_request(prompt)` as seen from
`DCAAgent.chat`: the `(response, role, next_turn_agent)` triple, or an
exception escaping it (e.g. the model call raising before the inner
`try`). -/
inductive HandleOutcome where
  | ok (content : String) (role : String) (nextTurnAgent : Option String)
  | raise (msg : String)

/-- Embeds `DCAAgent.chat` (dca_agent/agent.py lines 38-55).  `data`
models `request.get_json()` (`none` = JSON body absent); `handle` models
`self.handle_request(prompt)`.  `if not data` catches both `None` and an
empty dict; with a `prompt` key the handler's triple is wrapped as
`{"role": role, "content": response, "next_turn_agent": next_turn_agent}`;
otherwise `({"error": "Missing required parameters"}, 400)`; any
exception is caught and returned as `({"error": str(e)}, 500)`. -/
def DCAAgent.chat (handle : PromptVal → HandleOutcome)
    (data : Option (List (String × PromptVal))) : ChatResponse :=
  match data with
  | none => .failure [("error", .str "Invalid request data")] 400
  | some d =>
    if d.isEmpty then .failure [("error", .str "Invalid request data")] 400
    else
      match dictGet d "prompt" with
      | some prompt =>
        match handle prompt with
        | .ok content role nta =>
            .success [("role", .str role), ("content", .str content),
              ("next_turn_agent", PyValue.ofOption nta)]
        | .raise msg => .failure [("error", .str msg)] 500
      | none => .failure [("error", .str "Missing required parameters")] 400

/-- Output of the `RealtimeSearchAgent.chat` embedding: the agent state
after the call and the response. -/
structure RTChatOutput (C L E : Type) where
  state : RTState C L E
  response : ChatResponse
deriving DecidableEq

/-- Embeds `RealtimeSearchAgent.chat` (realtime_search/agent.py lines
75-96).  `data` models `request.dict()`; `synth` models
`self.synthesize_answer(search_term, search_results)` (which re-raises
model faults, caught here by the outer `except`).  With a `prompt` key
whose value is a dict holding `content`, the search term is passed to
`perform_search`, the results to `synth`, and success yields
`{"role": "assistant", "content": synthesized_answer}`.  A missing
`prompt` yields `({"error": "Missing parameters"}, 400)`; every exception
(string-typed prompt, missing `content` key, synthesis fault) is caught
by the outer handler, yielding `({"Error": str(e)}, 500)` — note the
capitalised `"Error"` key in the source. -/
def RealtimeSearchAgent.chat {C L E : Type}
    (http : String → HttpOutcome) (parse : String → List String)
    (synth : String → String → Except String String)
    (s : RTState C L E) (data : List (String × PromptVal)) :
    RTChatOutput C L E :=
  match dictGet data "prompt" with
  | some promptVal =>
    match promptVal with
    | .dict entries =>
      match dictGet entries "content" with
      | some searchTerm =>
        let out := RealtimeSearchAgent.perform_search http parse s
          (some searchTerm)
        match synth searchTerm out.result with
        | .ok answer =>
            ⟨out.state,
              .success [("role", .str "assistant"), ("content", .str answer)]⟩
        | .error msg => ⟨out.state, .failure [("Error", .str msg)] 500⟩
      | none => ⟨s, .failure [("Error", .str "\x27content\x27")] 500⟩
    | .str _ =>
        ⟨s, .failure
          [("Error", .str "string indices must be integers")] 500⟩
  | none => ⟨s, .failure [("error", .str "Missing parameters")] 400⟩

/-- Outcome of `tools.handle_create_dca_strategy`: the `(res, role)` pair
(only `res["strategy_id"]` is read), or a raised `tools.ValidationError`
or `tools.ExecutionError`. -/
inductive DCAToolOutcome where
  | ok (strategy_id : String) (role : String)
  | validationError (msg : String)
  | executionError (msg : String)

/-- Result of a DCA function handler: the `(message, role,
next_turn_agent)` triple, or a `KeyError` escaping it (the handler's
`except` clauses catch only the tool's domain exceptions). -/
inductive HandlerResult where
  | ok (content : String) (role : String) (nextTurnAgent : Option String)
  | keyError (key : String)
deriving DecidableEq

/-- Output of the `handle_dollar_cost_average` embedding: the result and
whether `tools.handle_create_dca_strategy` was invoked. -/
structure DCAHandlerOutput where
  result : HandlerResult
  toolCalled : Bool
deriving DecidableEq

/-- Embeds `DCAAgent.handle_dollar_cost_average` (dca_agent/agent.py lines
114-134).  Arguments to the tool call are evaluated left to right:
`args["token_address"]`, `args["amount"]`, `args["interval_type"]` raise
`KeyError` when absent (in that order, before the tool runs); the
remaining arguments use `args.get`, with the literal defaults
`max_slippage=0.01`, `gasless=False` passed as `dSlippage`, `dGasless`.
`tool` models `tools.handle_create_dca_strategy`; a `ValidationError` or
`ExecutionError` it raises is converted to `(str(e), "assistant", None)`,
success to the formatted strategy-id message. -/
def DCAAgent.handle_dollar_cost_average {V : Type}
    (tool : V → V → V → Option V → Option V → Option V → V → V →
      DCAToolOutcome)
    (dSlippage : V) (dGasless : V) (args : List (String × V)) :
    DCAHandlerOutput :=
  match dictGet args "token_address" with
  | none => ⟨.keyError "token_address", false⟩
  | some tokenAddress =>
    match dictGet args "amount" with
    | none => ⟨.keyError "amount", false⟩
    | some amount =>
      match dictGet args "interval_type" with
      | none => ⟨.keyError "interval_type", false⟩
      | some intervalType =>
        match tool tokenAddress amount intervalType
            (dictGet args "total_periods") (dictGet args "min_price")
            (dictGet args "max_price")
            ((dictGet args "max_slippage").getD dSlippage)
            ((dictGet args "gasless").getD dGasless) with
        | .ok sid role =>
            ⟨.ok ("Successfully created DCA strategy with ID: " ++ sid)
              role none, true⟩
        | .validationError msg => ⟨.ok msg "assistant" none, true⟩
        | .executionError msg => ⟨.ok msg "assistant" none, true⟩

/-- Absence of a key from a dict is the same as `dict.get` yielding
`None`. -/
theorem dictKeys_cons {β : Type} (p : String × β) (rest : List (String × β)) :
    dictKeys (p :: rest) = p.1 :: dictKeys rest := rfl

theorem dictGet_eq_none_iff {β : Type} (d : List (String × β)) (k : String) :
    dictGet d k = none ↔ k ∉ dictKeys d := by
  induction d with
  | nil => simp [dictGet, dictKeys]
  | cons p rest ih =>
    obtain ⟨k', v⟩ := p
    by_cases hk : k' = k
    · subst hk
      simp [dictGet, dictKeys_cons, List.mem_cons]
    · have hk' : ¬k = k' := fun h => hk h.symm
      simp [dictGet, dictKeys_cons, List.mem_cons, hk, hk', ih]

/-- C1: for every agent name absent from the registry and every request,
`delegate_chat` returns the body
`{"error": f"No such agent registered: {agent_name}"}` with status 400,
invokes no agent's `chat` method, and leaves the registry unchanged. -/
theorem delegate_chat_unknown_agent {ρ α : Type}
    (agents : List (String × Agent ρ α)) (agentName : String) (request : ρ)
    (h : agentName ∉ dictKeys agents) :
    (Delegator.delegate_chat agents agentName request).result =
      DelegateResult.error ("No such agent registered: " ++ agentName) 400 ∧
    (Delegator.delegate_chat agents agentName request).invoked = [] ∧
    (Delegator.delegate_chat agents agentName request).agentsAfter = agents := by
  have hget : dictGet agents agentName = none :=
    (dictGet_eq_none_iff agents agentName).mpr h
  unfold Delegator.delegate_chat
  rw [hget]
  exact ⟨rfl, rfl, rfl⟩

/-- Witness for C1 on the empty registry and the name `"missing"`. -/
theorem delegate_chat_unknown_agent_witness :
    "missing" ∉ dictKeys ([] : List (String × Agent Unit Unit)) ∧
    ((Delegator.delegate_chat ([] : List (String × Agent Unit Unit))
        "missing" ()).result =
      DelegateResult.error ("No such agent registered: " ++ "missing") 400 ∧
    (Delegator.delegate_chat ([] : List (String × Agent Unit Unit))
        "missing" ()).invoked = [] ∧
    (Delegator.delegate_chat ([] : List (String × Agent Unit Unit))
        "missing" ()).agentsAfter = []) :=
  ⟨by simp [dictKeys],
   delegate_chat_unknown_agent [] "missing" () (by simp [dictKeys])⟩

/-- C2: for every agent name present in the registry whose `chat` raises
on the given request, `delegate_chat` catches the exception and returns
the body `{"error": f"Chat delegation to {agent_name} failed"}` with
status 500.  The embedding of `delegate_chat` is a total function into
`DelegateOutput`, so no exception escapes it on any input. -/
theorem delegate_chat_agent_raises {ρ α : Type}
    (agents : List (String × Agent ρ α)) (agentName : String) (request : ρ)
    (a : Agent ρ α) (msg : String)
    (hfound : dictGet agents agentName = some a)
    (hraises : a request = ChatOutcome.exception msg) :
    (Delegator.delegate_chat agents agentName request).result =
      DelegateResult.error ("Chat delegation to " ++ agentName ++ " failed")
        500 ∧
    (Delegator.delegate_chat agents agentName request).agentsAfter = agents := by
  unfold Delegator.delegate_chat
  rw [hfound]
  dsimp only
  rw [hraises]
  exact ⟨rfl, rfl⟩

/-- Witness for C2 on a one-agent registry whose agent always raises. -/
theorem delegate_chat_agent_raises_witness :
    dictGet [("dca agent",
        (fun _ => ChatOutcome.exception "boom" : Agent Unit Unit))]
      "dca agent" = some (fun _ => ChatOutcome.exception "boom") ∧
    (Delegator.delegate_chat
        [("dca agent",
          (fun _ => ChatOutcome.exception "boom" : Agent Unit Unit))]
        "dca agent" ()).result =
      DelegateResult.error ("Chat delegation to " ++ "dca agent" ++ " failed")
        500 :=
  ⟨rfl,
   (delegate_chat_agent_raises
      [("dca agent", (fun _ => ChatOutcome.exception "boom" : Agent Unit Unit))]
      "dca agent" () (fun _ => ChatOutcome.exception "boom") "boom"
      rfl rfl).1⟩

/-- C3: under the configuration invariant that descriptor names are
unique keys, a descriptor's name is in `available_agents` exactly when
the filter condition `not (upload_required and not upload_state)` holds
of it; consequently, with no upload present, every descriptor with
`upload_required` true is excluded both from the candidate list and from
the descriptors whose lines make up the description block sent to the
model. -/
theorem selector_upload_filter (config : Config) (uploadState : Bool)
    (hnodup : (config.agents.map AgentInfo.name).Nodup) :
    (∀ info ∈ config.agents,
      (info.name ∈ availableAgents config uploadState ↔
        uploadSatisfied info uploadState = true)) ∧
    (uploadState = false →
      ∀ info ∈ config.agents, info.upload_required = true →
        info.name ∉ availableAgents config uploadState ∧
        info ∉ descriptionAgents config uploadState) := by
  have hiff : ∀ info ∈ config.agents,
      (info.name ∈ availableAgents config uploadState ↔
        uploadSatisfied info uploadState = true) := by
    intro info hinfo
    constructor
    · intro hmem
      simp only [availableAgents, List.mem_map, List.mem_filter] at hmem
      obtain ⟨b, ⟨hb, hsat⟩, hname⟩ := hmem
      have hbi : b = info := List.inj_on_of_nodup_map hnodup hb hinfo hname
      rwa [hbi] at hsat
    · intro hsat
      simp only [availableAgents, List.mem_map, List.mem_filter]
      exact ⟨info, ⟨hinfo, hsat⟩, rfl⟩
  refine ⟨hiff, ?_⟩
  intro hup info hinfo hreq
  have hnosat : ¬ uploadSatisfied info uploadState = true := by
    simp [uploadSatisfied, hreq, hup]
  have hnotin : info.name ∉ availableAgents config uploadState :=
    fun hmem => hnosat ((hiff info hinfo).mp hmem)
  refine ⟨hnotin, ?_⟩
  intro hdesc
  simp only [descriptionAgents, List.mem_filter] at hdesc
  exact hnotin (by simpa using hdesc.2)

/-- Witness for C3: two descriptors, the second upload-gated; with no
upload it is excluded from the candidate list and the description
block. -/
theorem selector_upload_filter_witness :
    ((Config.mk [⟨"crypto data agent", "pa", "CA", "da", false⟩,
        ⟨"rag agent", "pb", "CB", "db", true⟩]).agents.map
      AgentInfo.name).Nodup ∧
    ("rag agent" ∉
      availableAgents
        (Config.mk [⟨"crypto data agent", "pa", "CA", "da", false⟩,
          ⟨"rag agent", "pb", "CB", "db", true⟩]) false ∧
    (⟨"rag agent", "pb", "CB", "db", true⟩ : AgentInfo) ∉
      descriptionAgents
        (Config.mk [⟨"crypto data agent", "pa", "CA", "da", false⟩,
          ⟨"rag agent", "pb", "CB", "db", true⟩]) false) :=
  ⟨by decide,
   (selector_upload_filter
      (Config.mk [⟨"crypto data agent", "pa", "CA", "da", false⟩,
        ⟨"rag agent", "pb", "CB", "db", true⟩]) false (by decide)).2 rfl
      ⟨"rag agent", "pb", "CB", "db", true⟩ (by decide) rfl⟩

/-- C4: when the bound model returns no structured tool call,
`get_delegator_response` raises
`ValueError("No agent was selected by the model.")` (the `Except.error`
branch) and in particular never returns a selected agent name — there is
no silent fallback to `DEFAULT_AGENT` or any other name. -/
theorem get_delegator_response_no_tool_calls
    (invoke : LLMQuery → LLMResult) (config : Config) (prompt : String)
    (uploadState : Bool) (h : ∀ q, (invoke q).tool_calls = []) :
    Delegator.get_delegator_response invoke config prompt uploadState =
      Except.error "No agent was selected by the model." ∧
    ∀ o, Delegator.get_delegator_response invoke config prompt uploadState ≠
      Except.ok o := by
  unfold Delegator.get_delegator_response
  simp only [h]
  exact ⟨trivial, fun o hcon => Except.noConfusion hcon⟩

/-- Witness for C4 with a model that always answers free text (empty
`tool_calls`). -/
theorem get_delegator_response_no_tool_calls_witness :
    (∀ q, ((fun _ => LLMResult.mk [] : LLMQuery → LLMResult) q).tool_calls
      = []) ∧
    (Delegator.get_delegator_response (fun _ => LLMResult.mk [])
        (Config.mk []) "hello" false =
      Except.error "No agent was selected by the model." ∧
    ∀ o, Delegator.get_delegator_response (fun _ => LLMResult.mk [])
        (Config.mk []) "hello" false ≠ Except.ok o) :=
  ⟨fun _ => rfl,
   get_delegator_response_no_tool_calls (fun _ => LLMResult.mk [])
     (Config.mk []) "hello" false (fun _ => rfl)⟩

/-- C6: when the argument mapping has no `token_address` key,
`handle_dollar_cost_average` raises `KeyError("token_address")` out of
the handler (its `except` clauses catch only `ValidationError` and
`ExecutionError`) and `tools.handle_create_dca_strategy` is never
invoked — the failing subscript is evaluated before the call. -/
theorem handle_dollar_cost_average_missing_token_address {V : Type}
    (tool : V → V → V → Option V → Option V → Option V → V → V →
      DCAToolOutcome)
    (dSlippage : V) (dGasless : V) (args : List (String × V))
    (h : "token_address" ∉ dictKeys args) :
    DCAAgent.handle_dollar_cost_average tool dSlippage dGasless args =
      ⟨HandlerResult.keyError "token_address", false⟩ := by
  have hget : dictGet args "token_address" = none :=
    (dictGet_eq_none_iff args "token_address").mpr h
  unfold DCAAgent.handle_dollar_cost_average
  rw [hget]

/-- Witness for C6 on an argument mapping holding only `amount`. -/
theorem handle_dollar_cost_average_missing_token_address_witness :
    "token_address" ∉ dictKeys [(("amount" : String), "100")] ∧
    DCAAgent.handle_dollar_cost_average
        (fun _ _ _ _ _ _ _ _ => DCAToolOutcome.ok "sid" "assistant")
        "0.01" "False" [(("amount" : String), "100")] =
      ⟨HandlerResult.keyError "token_address", false⟩ :=
  ⟨by decide,
   handle_dollar_cost_average_missing_token_address
     (fun _ _ _ _ _ _ _ _ => DCAToolOutcome.ok "sid" "assistant")
     "0.01" "False" [(("amount" : String), "100")] (by decide)⟩

/-- C7: with no current search term (`None` argument) and no stored
`last_search_term`, `perform_search` returns the fixed message
`"Web search failed. Please provide a search term."`, leaves the state
untouched and performs no HTTP GET (empty request trace). -/
theorem perform_search_no_term {C L E : Type}
    (http : String → HttpOutcome) (parse : String → List String)
    (s : RTState C L E) (h : s.last_search_term = none) :
    RealtimeSearchAgent.perform_search http parse s none =
      ⟨s, "Web search failed. Please provide a search term.", []⟩ := by
  unfold RealtimeSearchAgent.perform_search
  rw [h]

/-- Witness for C7 on a fresh agent state. -/
theorem perform_search_no_term_witness :
    (RTState.mk () () () none : RTState Unit Unit Unit).last_search_term
      = none ∧
    RealtimeSearchAgent.perform_search
        (fun _ => HttpOutcome.requestException "offline") (fun _ => [])
        (RTState.mk () () () none : RTState Unit Unit Unit) none =
      ⟨RTState.mk () () () none,
        "Web search failed. Please provide a search term.", []⟩ :=
  ⟨rfl,
   perform_search_no_term (fun _ => HttpOutcome.requestException "offline")
     (fun _ => []) (RTState.mk () () () none) rfl⟩

/-- Body of the `try` block of `perform_search` returns the agent state
it was given: no field is assigned there. -/
theorem searchWith_state_eq {C L E : Type} (http : String → HttpOutcome)
    (parse : String → List String) (s : RTState C L E) (term : String) :
    (RealtimeSearchAgent.perform_search.searchWith http parse s term).state
      = s := by
  unfold RealtimeSearchAgent.perform_search.searchWith
  dsimp only
  split <;> rfl

/-- C10: `perform_search` never changes `config`, `llm` or `embeddings`;
a non-`None` argument is stored in `last_search_term` before the request
is issued (so it persists under every HTTP outcome), and a `None`
argument leaves `last_search_term` exactly as it was. -/
theorem perform_search_frame {C L E : Type}
    (http : String → HttpOutcome) (parse : String → List String)
    (s : RTState C L E) (searchTerm : Option String) :
    (RealtimeSearchAgent.perform_search http parse s searchTerm).state.config
      = s.config ∧
    (RealtimeSearchAgent.perform_search http parse s searchTerm).state.llm
      = s.llm ∧
    (RealtimeSearchAgent.perform_search http parse s
      searchTerm).state.embeddings = s.embeddings ∧
    (∀ t, searchTerm = some t →
      (RealtimeSearchAgent.perform_search http parse s
        searchTerm).state.last_search_term = some t) ∧
    (searchTerm = none →
      (RealtimeSearchAgent.perform_search http parse s
        searchTerm).state.last_search_term = s.last_search_term) := by
  cases searchTerm with
  | some t =>
    unfold RealtimeSearchAgent.perform_search
    rw [searchWith_state_eq]
    exact ⟨rfl, rfl, rfl,
      fun t' ht => by injection ht with h; rw [h],
      fun h => Option.noConfusion h⟩
  | none =>
    unfold RealtimeSearchAgent.perform_search
    cases hl : s.last_search_term with
    | none =>
      exact ⟨rfl, rfl, rfl, fun t ht => Option.noConfusion ht, fun _ => hl⟩
    | some t =>
      rw [searchWith_state_eq]
      exact ⟨rfl, rfl, rfl, fun t' ht => Option.noConfusion ht, fun _ => hl⟩

/-- Witness for C10: a failing HTTP oracle still leaves the fresh term
stored, and a `None` argument keeps the stored term. -/
theorem perform_search_frame_witness :
    (RealtimeSearchAgent.perform_search
        (fun _ => HttpOutcome.requestException "timeout") (fun _ => [])
        (RTState.mk () () () none : RTState Unit Unit Unit)
        (some "btc")).state.last_search_term = some "btc" ∧
    (RealtimeSearchAgent.perform_search
        (fun _ => HttpOutcome.requestException "timeout") (fun _ => [])
        (RTState.mk () () () (some "eth") : RTState Unit Unit Unit)
        none).state.last_search_term = some "eth" :=
  ⟨(perform_search_frame (fun _ => HttpOutcome.requestException "timeout")
      (fun _ => []) (RTState.mk () () () none) (some "btc")).2.2.2.1 "btc"
      rfl,
   (perform_search_frame (fun _ => HttpOutcome.requestException "timeout")
      (fun _ => []) (RTState.mk () () () (some "eth")) none).2.2.2.2 rfl⟩

/-- Inserting a binding into a dict adds exactly its key to the key
set. -/
theorem mem_dictKeys_dictInsert {β : Type} (d : List (String × β))
    (k : String) (v : β) (a : String) :
    a ∈ dictKeys (dictInsert d k v) ↔ a ∈ dictKeys d ∨ a = k := by
  unfold dictInsert
  by_cases h : (d.any (fun p => p.1 = k)) = true
  · rw [if_pos h]
    have hkeys : dictKeys (d.map (fun p => if p.1 = k then (k, v) else p))
        = dictKeys d := by
      unfold dictKeys
      rw [List.map_map]
      apply List.map_congr_left
      intro p _
      by_cases hp : p.1 = k
      · simp [hp]
      · simp [hp]
    rw [hkeys]
    have hk : k ∈ dictKeys d := by
      rw [List.any_eq_true] at h
      obtain ⟨p, hp, hpk⟩ := h
      rw [decide_eq_true_iff] at hpk
      exact hpk ▸ List.mem_map_of_mem Prod.fst hp
    constructor
    · exact Or.inl
    · rintro (ha | rfl)
      · exact ha
      · exact hk
  · rw [if_neg h]
    unfold dictKeys
    simp

/-- Key-set invariant of the `load_agents` fold, generalised over the
accumulator. -/
theorem dictKeys_load_agents_aux {β : Type} (construct : AgentInfo → Option β)
    (infos : List AgentInfo) (acc : List (String × β)) (a : String) :
    (a ∈ dictKeys (infos.foldl
      (fun agents info =>
        match construct info with
        | some inst => dictInsert agents info.name inst
        | none => agents)
      acc)) ↔
      a ∈ dictKeys acc ∨
        ∃ info ∈ infos, info.name = a ∧ (construct info).isSome := by
  induction infos generalizing acc with
  | nil => simp
  | cons i rest ih =>
    rw [List.foldl_cons]
    cases hc : construct i with
    | none =>
      rw [ih]
      constructor
      · rintro (ha | ⟨info, hmem, hname, hsome⟩)
        · exact Or.inl ha
        · exact Or.inr ⟨info, List.mem_cons_of_mem i hmem, hname, hsome⟩
      · rintro (ha | ⟨info, hmem, hname, hsome⟩)
        · exact Or.inl ha
        · rcases List.mem_cons.mp hmem with rfl | hmem'
          · rw [hc] at hsome
            exact absurd hsome (by simp)
          · exact Or.inr ⟨info, hmem', hname, hsome⟩
    | some inst =>
      rw [ih, mem_dictKeys_dictInsert]
      constructor
      · rintro ((ha | rfl) | ⟨info, hmem, hname, hsome⟩)
        · exact Or.inl ha
        · exact Or.inr ⟨i, List.mem_cons_self i rest, rfl, by simp [hc]⟩
        · exact Or.inr ⟨info, List.mem_cons_of_mem i hmem, hname, hsome⟩
      · rintro (ha | ⟨info, hmem, hname, hsome⟩)
        · exact Or.inl (Or.inl ha)
        · rcases List.mem_cons.mp hmem with rfl | hmem'
          · exact Or.inl (Or.inr hname.symm)
          · exact Or.inr ⟨info, hmem', hname, hsome⟩

/-- C8: for every configuration and every construction oracle, the
registry built by `load_agents` holds exactly the names of the
descriptors whose resolution and construction succeeded: a failing
descriptor is skipped without aborting the fold or disturbing the other
descriptors, so the registry may be smaller than the configuration
list. -/
theorem load_agents_registry_keys {β : Type}
    (construct : AgentInfo → Option β) (config : Config) (a : String) :
    a ∈ dictKeys (Delegator.load_agents construct config) ↔
      ∃ info ∈ config.agents, info.name = a ∧ (construct info).isSome := by
  unfold Delegator.load_agents
  rw [dictKeys_load_agents_aux]
  simp [dictKeys]

/-- C9 configuration: two descriptors, neither upload-gated. -/
def c9Config : Config :=
  Config.mk [⟨"crypto data agent", "path.a", "ClassA", "market data", false⟩,
    ⟨"dca agent", "path.x", "ClassX", "trading strategies", false⟩]

/-- C9 construction oracle: building the second descriptor raises (e.g.
its module fails to import), the first succeeds. -/
def c9Construct : AgentInfo → Option Unit := fun info =>
  if info.name = "dca agent" then none else some ()

/-- C9 model oracle: the model answers with a structured choice naming
the second agent. -/
def c9Invoke : LLMQuery → LLMResult := fun _ =>
  LLMResult.mk [ToolCall.mk [("agent", "dca agent")]]

/-- C9: `available_agents` is computed from `config["agents"]`, not from
the loaded registry: with a configuration whose second descriptor fails
to construct, its name is absent from `self.agents` yet still appears in
the candidate list, and `get_delegator_response` can return it. -/
theorem candidate_list_ignores_registry :
    "dca agent" ∉ dictKeys (Delegator.load_agents c9Construct c9Config) ∧
    "dca agent" ∈ availableAgents c9Config false ∧
    Delegator.get_delegator_response c9Invoke c9Config "start a dca" false =
      Except.ok (some "dca agent") := by
  refine ⟨?_, ?_, ?_⟩
  · decide
  · decide
  · rfl

/-- C5 counterexample oracles and inputs: a working HTTP fetch, one
parsed result, a synthesis that succeeds, a fresh agent state and a
well-formed request whose prompt mapping carries a `content` field. -/
def c5Http : String → HttpOutcome := fun _ => HttpOutcome.ok "markup"

def c5Parse : String → List String := fun _ => ["result one"]

def c5Synth : String → String → Except String String :=
  fun _ _ => Except.ok "Synthesized answer."

def c5State : RTState Unit Unit Unit := RTState.mk () () () none

def c5Data : List (String × PromptVal) :=
  [("prompt", PromptVal.dict [("content", "btc price")])]

/-- C5 counterexample: on a successful request the realtime search
agent's `chat` returns a body whose keys are exactly `role` and
`content` — the key `next_turn_agent` is absent, so the claimed uniform
success shape `{role, content, next_turn_agent}` does not hold at this
agent. -/
theorem realtime_chat_success_lacks_next_turn_agent :
    (RealtimeSearchAgent.chat c5Http c5Parse c5Synth c5State c5Data).response
      = ChatResponse.success [("role", PyValue.str "assistant"),
          ("content", PyValue.str "Synthesized answer.")] ∧
    "next_turn_agent" ∉ dictKeys [(("role" : String), PyValue.str "assistant"),
      ("content", PyValue.str "Synthesized answer.")] := by
  exact ⟨rfl, by decide⟩

/-- C5 as amended: the DCA agent's `chat` does return success bodies
keyed exactly `role`, `content`, `next_turn_agent` and failure bodies
keyed `error` with status 400 or 500; the realtime search agent's `chat`
returns success bodies keyed exactly `role` and `content` (no
`next_turn_agent`), failure bodies keyed `error` with status 400 when
the prompt is missing, and bodies keyed `Error` (capitalised) with
status 500 for every caught exception. -/
theorem chat_boundary_response_shapes {C L E : Type}
    (handle : PromptVal → HandleOutcome)
    (data : Option (List (String × PromptVal)))
    (http : String → HttpOutcome) (parse : String → List String)
    (synth : String → String → Except String String)
    (s : RTState C L E) (rdata : List (String × PromptVal)) :
    (∀ b, DCAAgent.chat handle data = ChatResponse.success b →
      dictKeys b = ["role", "content", "next_turn_agent"]) ∧
    (∀ b st, DCAAgent.chat handle data = ChatResponse.failure b st →
      dictKeys b = ["error"] ∧ (st = 400 ∨ st = 500)) ∧
    (∀ b, (RealtimeSearchAgent.chat http parse synth s rdata).response =
        ChatResponse.success b → dictKeys b = ["role", "content"]) ∧
    (∀ b st, (RealtimeSearchAgent.chat http parse synth s rdata).response =
        ChatResponse.failure b st →
      (dictKeys b = ["error"] ∧ st = 400) ∨
      (dictKeys b = ["Error"] ∧ st = 500)) := by
  refine ⟨?_, ?_, ?_, ?_⟩
  · intro b hb
    unfold DCAAgent.chat at hb
    repeat' split at hb
    all_goals (try exact ChatResponse.noConfusion hb)
    all_goals (injection hb with hb; subst hb; rfl)
  · intro b st hb
    unfold DCAAgent.chat at hb
    repeat' split at hb
    all_goals (try exact ChatResponse.noConfusion hb)
    all_goals
      (injection hb with hb1 hb2
       subst hb1
       subst hb2
       first
         | exact ⟨rfl, Or.inl rfl⟩
         | exact ⟨rfl, Or.inr rfl⟩)
  · intro b hb
    unfold RealtimeSearchAgent.chat at hb
    dsimp only at hb
    repeat' split at hb
    all_goals (try dsimp only at hb)
    all_goals (try exact ChatResponse.noConfusion hb)
    all_goals (injection hb with hb; subst hb; rfl)
  · intro b st hb
    unfold RealtimeSearchAgent.chat at hb
    dsimp only at hb
    repeat' split at hb
    all_goals (try dsimp only at hb)
    all_goals (try exact ChatResponse.noConfusion hb)
    all_goals
      (injection hb with hb1 hb2
       subst hb1
       subst hb2
       first
         | exact Or.inl ⟨rfl, rfl⟩
         | exact Or.inr ⟨rfl, rfl⟩)

/-- Witness for the amended C5: a DCA success body has the three-key
shape, and a promptless realtime request produces an `error`-keyed 400
body. -/
theorem chat_boundary_response_shapes_witness :
    dictKeys [(("role" : String), PyValue.str "assistant"),
      ("content", PyValue.str "Created."), ("next_turn_agent", PyValue.null)]
      = ["role", "content", "next_turn_agent"] ∧
    ((dictKeys [(("error" : String), PyValue.str "Missing parameters")]
        = ["error"] ∧ (400 : Nat) = 400) ∨
     (dictKeys [(("error" : String), PyValue.str "Missing parameters")]
        = ["Error"] ∧ (400 : Nat) = 500)) :=
  ⟨(chat_boundary_response_shapes
      (fun _ => HandleOutcome.ok "Created." "assistant" none)
      (some [("prompt", PromptVal.str "make a dca")])
      c5Http c5Parse c5Synth c5State []).1
      [(("role" : String), PyValue.str "assistant"),
        ("content", PyValue.str "Created."),
        ("next_turn_agent", PyValue.null)] rfl,
   (chat_boundary_response_shapes
      (fun _ => HandleOutcome.ok "Created." "assistant" none)
      (some [("prompt", PromptVal.str "make a dca")])
      c5Http c5Parse c5Synth c5State []).2.2.2
      [(("error" : String), PyValue.str "Missing parameters")] 400 rfl⟩
